import Mathlib

/-!
# CalculadoraFunciones: the page script `static/main.js`

A shallow embedding of the submission handler `calculateAndPlot` and of the
helpers it calls (`hideMessages`, `displayResults`, `createPlot`, `showError`).

* The page is a record `DOM` of the properties the script writes.
* The script never reads those properties back, so a run is the list of DOM
  writes it performs, in program order (`Write`); `run` replays a list of writes
  on a page.
* `calculateAndPlot` is asynchronous. It runs synchronously up to the `fetch`
  call (`syncPart`), is suspended while the request is in flight, and continues
  when the response has been received and its body read (`resumePart`).  What the
  network delivers is an input, `FetchOutcome`.
* What the JavaScript engine or Plotly decides and is not modelled here (the
  text of a `TypeError`, `Number::toString` of a double, whether `Plotly.newPlot`
  throws) is an input as well, `Host`.
-/

namespace CalculadoraFunciones

/-! ## JavaScript values -/

/-- The numbers `JSON.parse` can produce: a finite double, given by its exact
value (`-0` and `0` are not told apart, no operation below does), or an infinity
(the literal was out of range). -/
inductive JSNumber where
  | finite (q : ℚ)
  | posInf
  | negInf
  deriving DecidableEq

/-- A parsed JSON document.  The members of an object are listed with the member
that property access finds first. -/
inductive JSON where
  | null
  | bool (b : Bool)
  | num (n : JSNumber)
  | str (s : String)
  | arr (items : List JSON)
  | obj (members : List (String × JSON))

/-- A JavaScript value read from a parsed document: `none` is `undefined`. -/
abbrev JSValue := Option JSON

/-- A thrown value; the script reads nothing of it but `message`. -/
structure JSError where
  message : String
  deriving DecidableEq

/-- ToBoolean. -/
def truthy : JSValue → Bool
  | none => false
  | some .null => false
  | some (.bool b) => b
  | some (.num (.finite q)) => decide (q ≠ 0)
  | some (.num _) => true
  | some (.str s) => decide (s ≠ "")
  | some (.arr _) => true
  | some (.obj _) => true

/-! ## The plot description handed to Plotly (`createPlot`, lines 87-160) -/

structure Colorbar where
  title : String
  titleside : String

structure ContoursZ where
  show_ : Bool
  usecolormap : Bool
  highlightcolor : String
  projectZ : Bool

structure Trace where
  type : String
  x : JSValue
  y : JSValue
  z : JSValue
  colorscale : String
  showscale : Bool
  colorbar : Colorbar
  contoursZ : ContoursZ

structure Font where
  size : Nat
  family : String

structure Title where
  text : String
  font : Font

structure Axis where
  title : String
  gridcolor : String
  showbackground : Bool
  backgroundcolor : String

structure Eye where
  x : ℚ
  y : ℚ
  z : ℚ

structure Scene where
  xaxis : Axis
  yaxis : Axis
  zaxis : Axis
  cameraEye : Eye

structure Margin where
  l : Nat
  r : Nat
  b : Nat
  t : Nat

structure Layout where
  title : Title
  autosize : Bool
  height : Nat
  scene : Scene
  margin : Margin

structure Config where
  responsive : Bool
  displayModeBar : Bool
  displaylogo : Bool
  modeBarButtonsToRemove : List String

/-- The three arguments `Plotly.newPlot` receives after the container. -/
structure PlotDescription where
  data : List Trace
  layout : Layout
  config : Config

/-! ## The host: engine and charting library -/

/-- What the script takes from its environment and is not modelled here. -/
structure Host where
  /-- Message of the `TypeError` raised when `receiver.name` is read from `null`
  or `undefined`, or `receiver.name(...)` is called and is not a function;
  `expr` is the source text of the receiver. -/
  typeErrorMessage : (receiver : JSValue) → (expr : String) → (name : String) → String
  /-- ToString of a number, an array or an object. -/
  toStringOther : JSON → String
  /-- Number::toString of a finite double of magnitude at least `10^21`. -/
  numberToString : ℚ → String
  /-- The exception `Plotly.newPlot` throws for a description, `none` when it
  renders it. -/
  newPlotThrows : PlotDescription → Option JSError

/-! ## The page -/

/-- The properties of the page that the script writes. -/
structure DOM where
  /-- The property `loadingDiv.style.display`. -/
  loadingDisplay : String
  /-- The property `calculateBtn.disabled`. -/
  calculateBtnDisabled : Bool
  /-- The property `resultsDiv.style.display`. -/
  resultsDisplay : String
  /-- The property `errorDiv.style.display`. -/
  errorDisplay : String
  /-- The `textContent` of `#error-text`. -/
  errorText : String
  /-- The `textContent` of `#volume-value`. -/
  volumeValue : String
  /-- The `textContent` of `#error-value`. -/
  errorValue : String
  /-- Content of `plotContainer`: `none` after `innerHTML = ''`, the rendered
  description after `Plotly.newPlot`, which replaces what the container held. -/
  plotContainer : Option PlotDescription

/-- One assignment to the page. -/
inductive Write where
  | loadingDisplay (v : String)
  | calculateBtnDisabled (b : Bool)
  | resultsDisplay (v : String)
  | errorDisplay (v : String)
  | errorText (s : String)
  | volumeValue (s : String)
  | errorValue (s : String)
  | clearPlot
  | newPlot (p : PlotDescription)

/-- The page after one assignment. -/
def Write.apply : Write → DOM → DOM
  | .loadingDisplay v, d => { d with loadingDisplay := v }
  | .calculateBtnDisabled b, d => { d with calculateBtnDisabled := b }
  | .resultsDisplay v, d => { d with resultsDisplay := v }
  | .errorDisplay v, d => { d with errorDisplay := v }
  | .errorText s, d => { d with errorText := s }
  | .volumeValue s, d => { d with volumeValue := s }
  | .errorValue s, d => { d with errorValue := s }
  | .clearPlot, d => { d with plotContainer := none }
  | .newPlot p, d => { d with plotContainer := some p }

/-- Replays writes in program order. -/
def run (ws : List Write) (d : DOM) : DOM :=
  ws.foldl (fun s w => w.apply s) d

/-! ## Number formatting (ECMA-262, `Number.prototype.toFixed` and
`Number.prototype.toExponential`) -/

/-- The integer `n` for which `n - x` is closest to zero, the larger one of two;
`x` is not negative. -/
def roundHalfUp (x : ℚ) : ℕ := ⌊x + 1 / 2⌋₊

/-- The digits of the decimal representation of `n`, no leading zeros. -/
def decimalDigits (n : ℕ) : List Char := Nat.toDigits 10 n

/-- The value of a decimal digit character. -/
def digitValue (c : Char) : ℕ := c.toNat - 48

/-- The number a string of decimal digits denotes. -/
def decimalValue (cs : List Char) : ℕ := cs.foldl (fun a c => 10 * a + digitValue c) 0

/-- Steps 11.a to 11.c of `Number.prototype.toFixed(f)`, on a finite magnitude
`x < 10^21`. -/
def fixedDigits (f : ℕ) (x : ℚ) : List Char :=
  let n := roundHalfUp (x * 10 ^ f)
  let m := if n = 0 then ['0'] else decimalDigits n
  if f ≠ 0 then
    let k := m.length
    let m := if k ≤ f then List.replicate (f + 1 - k) '0' ++ m else m
    let k := if k ≤ f then f + 1 else k
    m.take (k - f) ++ '.' :: m.drop (k - f)
  else m

/-- The method call `x.toFixed(f)` for `0 ≤ f ≤ 100`: steps 6 to 12 of
`Number.prototype.toFixed`. -/
def toFixed (host : Host) (f : ℕ) : JSNumber → String
  | .posInf => "Infinity"
  | .negInf => "-Infinity"
  | .finite q =>
    let s := if q < 0 then ['-'] else []
    let x := if q < 0 then -q else q
    if (10 : ℚ) ^ 21 ≤ x then String.mk (s ++ (host.numberToString x).data)
    else String.mk (s ++ fixedDigits f x)

/-- The exponent `e` and the integer `n` of `toExponential`, step 10.b: `10^f ≤ n
< 10^(f+1)` and `n * 10^(e-f)` is closest to `x`, the larger one of two; `x` is
positive. -/
def exponentAndDigits (f : ℕ) (x : ℚ) : ℤ × ℕ :=
  let e := Int.log 10 x
  let n := roundHalfUp (x / (10 : ℚ) ^ (e - f))
  if n = 10 ^ (f + 1) then (e + 1, 10 ^ f) else (e, n)

/-- The method call `x.toExponential(f)` for `0 ≤ f ≤ 100`: steps 4 to 14 of
`Number.prototype.toExponential`. -/
def toExponential (f : ℕ) : JSNumber → String
  | .posInf => "Infinity"
  | .negInf => "-Infinity"
  | .finite q =>
    let s := if q < 0 then ['-'] else []
    let x := if q < 0 then -q else q
    let en : ℤ × ℕ := if x = 0 then (0, 0) else exponentAndDigits f x
    let m := if x = 0 then List.replicate (f + 1) '0' else decimalDigits en.2
    let m := if f ≠ 0 then m.take 1 ++ '.' :: m.drop 1 else m
    let c := if en.1 < 0 then '-' else '+'
    let d := decimalDigits en.1.natAbs
    String.mk (s ++ m ++ 'e' :: c :: d)

/-! ## Property access and conversions -/

/-- The fallback of line 55. -/
def fallbackMessage : String := "Error al procesar la solicitud"

/-- Reading `v.key` for one of the keys the script reads (`success`, `message`,
`volume`, `error`, `x`, `y`, `z`): none of them is a built-in property of a
string, number, boolean or array, so only an object can hold it; reading from
`null` throws. -/
def getProp (host : Host) (v : JSON) (key : String) : Except JSError JSValue :=
  match v with
  | .null => .error ⟨host.typeErrorMessage (some .null) "data" key⟩
  | .obj members => .ok (members.lookup key)
  | _ => .ok none

/-- ToString, as `new Error(value)` applies it to its argument. -/
def toStringValue (host : Host) : JSValue → String
  | none => "undefined"
  | some .null => "null"
  | some (.bool true) => "true"
  | some (.bool false) => "false"
  | some (.str s) => s
  | some v => host.toStringOther v

/-- Calling `data.volume.toFixed(6)` (line 77) on the value `v` of `data.volume`:
only a number has the method. -/
def callToFixed (host : Host) (v : JSValue) : Except JSError String :=
  match v with
  | some (.num n) => .ok (toFixed host 6 n)
  | _ => .error ⟨host.typeErrorMessage v "data.volume" "toFixed"⟩

/-- Calling `data.error.toExponential(2)` (line 78) on the value `v` of
`data.error`: only a number has the method. -/
def callToExponential (host : Host) (v : JSValue) : Except JSError String :=
  match v with
  | some (.num n) => .ok (toExponential 2 n)
  | _ => .error ⟨host.typeErrorMessage v "data.error" "toExponential"⟩

/-! ## The network -/

/-- What `response.json()` settles to. -/
inductive Body where
  /-- The body is not JSON: the promise rejects with the parser's error. -/
  | unparsable (e : JSError)
  | parsed (data : JSON)

/-- What `fetch('/calculate', ...)` settles to. -/
inductive FetchOutcome where
  /-- No response: the promise rejects. -/
  | rejected (e : JSError)
  | response (status : ℕ) (body : Body)

/-- The property `response.ok`: the status is in the range 200-299. -/
def responseOk (status : ℕ) : Bool := decide (200 ≤ status ∧ status ≤ 299)

/-- The values of the form's inputs when it is submitted.  Only `function` is
used after the request has been sent; the other five go into the request body. -/
structure Form where
  function : String
  a : String
  b : String
  c : String
  d : String
  resolution : String

/-! ## The script -/

/-- Lines 180-183. -/
def hideMessages : List Write :=
  [.errorDisplay "none", .resultsDisplay "none"]

/-- Lines 169-175. -/
def showError (message : String) : List Write :=
  [.errorText message, .errorDisplay "block", .clearPlot]

/-- Lines 76-80: the writes performed and the exception that ended them, if
any. -/
def displayResults (host : Host) (data : JSON) : List Write × Option JSError :=
  match (getProp host data "volume").bind (callToFixed host) with
  | .error e => ([], some e)
  | .ok volume =>
    match (getProp host data "error").bind (callToExponential host) with
    | .error e => ([.volumeValue volume], some e)
    | .ok error => ([.volumeValue volume, .errorValue error, .resultsDisplay "block"], none)

/-- Lines 87-106. -/
def plotData (x y z : JSValue) : List Trace :=
  [{ type := "surface", x := x, y := y, z := z,
     colorscale := "Viridis", showscale := true,
     colorbar := { title := "z", titleside := "right" },
     contoursZ := { show_ := true, usecolormap := true, highlightcolor := "#42f462",
                    projectZ := true } }]

/-- The axis descriptors of lines 120-137. -/
def axis (title : String) : Axis :=
  { title := title, gridcolor := "rgb(255, 255, 255)", showbackground := true,
    backgroundcolor := "rgb(230, 230,230)" }

/-- Lines 109-152. -/
def layout (functionStr : String) : Layout :=
  { title := { text := "Superficie z = " ++ functionStr,
               font := { size := 20, family := "Arial, sans-serif" } },
    autosize := true,
    height := 600,
    scene := { xaxis := axis "X", yaxis := axis "Y", zaxis := axis "Z",
               cameraEye := { x := 3 / 2, y := 3 / 2, z := 13 / 10 } },
    margin := { l := 0, r := 0, b := 0, t := 40 } }

/-- Lines 155-160. -/
def config : Config :=
  { responsive := true, displayModeBar := true, displaylogo := false,
    modeBarButtonsToRemove := ["lasso2d", "select2d"] }

/-- The description `createPlot` builds from the three values it reads. -/
def plotDescription (x y z : JSValue) (functionStr : String) : PlotDescription :=
  { data := plotData x y z, layout := layout functionStr, config := config }

/-- Lines 85-164. -/
def createPlot (host : Host) (data : JSON) (functionStr : String) :
    List Write × Option JSError :=
  match getProp host data "x", getProp host data "y", getProp host data "z" with
  | .ok x, .ok y, .ok z =>
    match host.newPlotThrows (plotDescription x y z functionStr) with
    | some e => ([], some e)
    | none => ([.newPlot (plotDescription x y z functionStr)], none)
  | .error e, _, _ => ([], some e)
  | _, .error e, _ => ([], some e)
  | _, _, .error e => ([], some e)

/-- Lines 54-56: the exception thrown, if any.  `data.success` is read only when
`response.ok` holds. -/
def checkResponse (host : Host) (status : ℕ) (data : JSON) : Option JSError :=
  let failed : Except JSError Bool :=
    if !responseOk status then .ok true
    else (getProp host data "success").map (fun v => !truthy v)
  match failed with
  | .error e => some e
  | .ok false => none
  | .ok true =>
    match getProp host data "message" with
    | .error e => some e
    | .ok message =>
      some ⟨if truthy message then toStringValue host message else fallbackMessage⟩

/-- Lines 42-63, the `try` block: the writes performed and the exception that
ended it, if any. -/
def tryBlock (host : Host) (form : Form) : FetchOutcome → List Write × Option JSError
  | .rejected e => ([], some e)
  | .response _ (.unparsable e) => ([], some e)
  | .response status (.parsed data) =>
    match checkResponse host status data with
    | some e => ([], some e)
    | none =>
      match displayResults host data with
      | (shown, some e) => (shown, some e)
      | (shown, none) =>
        ((shown ++ (createPlot host data form.function).1),
          (createPlot host data form.function).2)

/-- Lines 64-66, the `catch` clause. -/
def catchBlock : Option JSError → List Write
  | some error => showError error.message
  | none => []

/-- Lines 66-70, the `finally` clause. -/
def finallyBlock : List Write :=
  [.loadingDisplay "none", .calculateBtnDisabled false]

/-- Lines 26-30: what `calculateAndPlot` writes before it sends the request. -/
def syncPart : List Write :=
  hideMessages ++ [.loadingDisplay "block", .calculateBtnDisabled true]

/-- The writes of the `try` block and of the `catch` clause: the handling of the
response. -/
def handling (host : Host) (form : Form) (r : FetchOutcome) : List Write :=
  (tryBlock host form r).1 ++ catchBlock (tryBlock host form r).2

/-- Lines 42-70: what `calculateAndPlot` writes once the request has settled. -/
def resumePart (host : Host) (form : Form) (r : FetchOutcome) : List Write :=
  handling host form r ++ finallyBlock

/-- Lines 24-71, one submission with no other in flight. -/
def calculateAndPlot (host : Host) (form : Form) (r : FetchOutcome) : List Write :=
  syncPart ++ resumePart host form r

/-- Two submissions, the second started while the first is in flight: both
synchronous parts run before either response is handled, then the two
continuations run in the order the responses arrive (`first`, then `last`). -/
def overlapped (host : Host) (formFirst formLast : Form) (first last : FetchOutcome) :
    List Write :=
  syncPart ++ syncPart ++ resumePart host formFirst first ++ resumePart host formLast last

/-! ## Classifying writes and outcomes -/

/-- The value of `data.success` where reading it does not throw, `undefined`
where it does (`data` is `null`). -/
def successField : JSON → JSValue
  | .obj members => members.lookup "success"
  | _ => none

/-- A write to the busy indicator or to the submit control. -/
def Write.isBusyWrite : Write → Bool
  | .loadingDisplay _ => true
  | .calculateBtnDisabled _ => true
  | _ => false

/-- The failures named by the error taxonomy: no response, a body that is not
JSON, and a parsed body whose `success` is not truthy (`false`, or absent). -/
def FetchOutcome.isFailure : FetchOutcome → Bool
  | .rejected _ => true
  | .response _ (.unparsable _) => true
  | .response _ (.parsed (.obj members)) => !truthy (members.lookup "success")
  | .response _ (.parsed _) => true

/-! ## A sample host and sample inputs -/

/-- The `TypeError` texts of V8. -/
def v8TypeErrorMessage (receiver : JSValue) (expr name : String) : String :=
  match receiver with
  | none => "Cannot read properties of undefined (reading '" ++ name ++ "')"
  | some .null => "Cannot read properties of null (reading '" ++ name ++ "')"
  | some _ => expr ++ "." ++ name ++ " is not a function"

/-- Whether `p / q ≥ 2 ^ t`. -/
def geTwoPow (p q : ℕ) (t : ℤ) : Bool :=
  if 0 ≤ t then decide (q * 2 ^ t.toNat ≤ p) else decide (q ≤ p * 2 ^ (-t).toNat)

/-- Whether `p / q ≥ 10 ^ t`. -/
def geTenPow (p q : ℕ) (t : ℤ) : Bool :=
  if 0 ≤ t then decide (q * 10 ^ t.toNat ≤ p) else decide (q ≤ p * 10 ^ (-t).toNat)

/-- The largest `e` with `2 ^ e ≤ p / q`, for positive `p` and `q`: the difference
of their numbers of binary digits, or one less. -/
def floorLog2 (p q : ℕ) : ℤ :=
  let b : ℤ := ((Nat.toDigits 2 p).length : ℤ) - ((Nat.toDigits 2 q).length : ℤ)
  if geTwoPow p q b then b else b - 1

/-- The largest `e` with `10 ^ e ≤ p / q`, for positive `p` and `q`: the
difference of their numbers of decimal digits, or one less. -/
def floorLog10 (p q : ℕ) : ℤ :=
  let b : ℤ := ((Nat.toDigits 10 p).length : ℤ) - ((Nat.toDigits 10 q).length : ℤ)
  if geTenPow p q b then b else b - 1

/-- The double nearest to the positive `p / q`, ties to even, as a significand
`m` and an exponent `t`: the double is `m * 2 ^ t`; the exponent is at least that
of the subnormal numbers. -/
def roundToDouble (p q : ℕ) : ℕ × ℤ :=
  let e := max (floorLog2 p q) (-1022)
  let t := e - 52
  let num := if 0 ≤ t then p else p * 2 ^ (-t).toNat
  let den := if 0 ≤ t then q * 2 ^ t.toNat else q
  let m := num / den
  let r := num % den
  if 2 * r < den then (m, t)
  else if den < 2 * r then (m + 1, t)
  else if m % 2 = 0 then (m, t) else (m + 1, t)

/-- Whether `mt.1 * 2 ^ mt.2 = p / q`. -/
def doubleIs (mt : ℕ × ℤ) (p q : ℕ) : Bool :=
  if 0 ≤ mt.2 then decide (mt.1 * 2 ^ mt.2.toNat * q = p)
  else decide (mt.1 * q = p * 2 ^ (-mt.2).toNat)

/-- Whether `s * 10 ^ j` rounds to the double `p / q`. -/
def roundsTo (s : ℕ) (j : ℤ) (p q : ℕ) : Bool :=
  if 0 ≤ j then doubleIs (roundToDouble (s * 10 ^ j.toNat) 1) p q
  else doubleIs (roundToDouble s (10 ^ (-j).toNat)) p q

/-- The integer part of `(p / q) / 10 ^ j`. -/
def scaledFloor (p q : ℕ) (j : ℤ) : ℕ :=
  if 0 ≤ j then p / (q * 10 ^ j.toNat) else p * 10 ^ (-j).toNat / q

/-- The distance from `s * 10 ^ j` to `p / q`, in units of `1 / q` when `j` is
not negative and of `10 ^ j / q` when it is. -/
def distance (s : ℕ) (j : ℤ) (p q : ℕ) : ℕ :=
  if 0 ≤ j then Int.natAbs ((s * 10 ^ j.toNat * q : ℤ) - p)
  else Int.natAbs ((s * q : ℤ) - p * 10 ^ (-j).toNat)

/-- The pairs `(s, n)` of Number::toString, step 5, for a given number `k` of
digits: `10 ^ (k - 1) ≤ s < 10 ^ k` and `s * 10 ^ (n - k)` rounds to the double
`p / q`.  Only the two `k`-digit decimals around `p / q` and the power of ten
above it can round to it. -/
def candidates (p q : ℕ) (k : ℕ) : List (ℕ × ℤ) :=
  let n : ℤ := floorLog10 p q + 1
  let s := scaledFloor p q (n - k)
  ([(s, n), (s + 1, n), (10 ^ (k - 1), n + 1)].filter
    (fun c => decide (10 ^ (k - 1) ≤ c.1) && decide (c.1 < 10 ^ k) &&
      roundsTo c.1 (c.2 - k) p q))

/-- The candidate nearest to `p / q`, as engines choose it. -/
def closest (p q : ℕ) (k : ℕ) : List (ℕ × ℤ) → Option (ℕ × ℤ)
  | [] => none
  | [c] => some c
  | c :: d :: _ =>
    if c.2 = d.2 then
      (if distance d.1 (d.2 - k) p q < distance c.1 (c.2 - k) p q then some d else some c)
    else some c

/-- The triple `(s, k, n)` of Number::toString, step 5, for the positive double
`p / q`: `k` is as small as possible; seventeen digits always suffice. -/
def shortestDigits (p q : ℕ) : ℕ × ℕ × ℤ :=
  match (List.range 17).findSome? (fun i =>
      (closest p q (i + 1) (candidates p q (i + 1))).map (fun c => (c.1, i + 1, c.2))) with
  | some r => r
  | none => (scaledFloor p q (floorLog10 p q + 1 - 17), 17, floorLog10 p q + 1)

/-- Number::toString, steps 5 to 11, of the positive double `p / q`. -/
def positiveToString (p q : ℕ) : List Char :=
  let s := (shortestDigits p q).1
  let k := (shortestDigits p q).2.1
  let n := (shortestDigits p q).2.2
  let digits := Nat.toDigits 10 s
  if -5 ≤ n ∧ n ≤ 21 then
    if (k : ℤ) ≤ n then digits ++ List.replicate (n.toNat - k) '0'
    else if 0 < n then digits.take n.toNat ++ '.' :: digits.drop n.toNat
    else '0' :: '.' :: List.replicate (-n).toNat '0' ++ digits
  else
    let sign := if n - 1 < 0 then '-' else '+'
    let e := Nat.toDigits 10 (n - 1).natAbs
    if k = 1 then digits ++ 'e' :: sign :: e
    else digits.take 1 ++ '.' :: digits.drop 1 ++ 'e' :: sign :: e

/-- Number::toString of the double nearest to the positive `p / q`. -/
def v8PositiveToString (p q : ℕ) : List Char :=
  let mt := roundToDouble p q
  if 0 ≤ mt.2 then positiveToString (mt.1 * 2 ^ mt.2.toNat) 1
  else positiveToString mt.1 (2 ^ (-mt.2).toNat)

/-- Number::toString of a positive number. -/
def v8NumberToString (x : ℚ) : String :=
  String.mk (v8PositiveToString x.num.natAbs x.den)

/-- Number::toString, steps 1 to 4. -/
def v8NumberText : JSNumber → List Char
  | .posInf => "Infinity".data
  | .negInf => "-Infinity".data
  | .finite q =>
    if q = 0 then ['0']
    else if q < 0 then '-' :: v8PositiveToString q.num.natAbs q.den
    else v8PositiveToString q.num.natAbs q.den

mutual
/-- ToString of a parsed value. -/
def v8ToString : JSON → List Char
  | .null => "null".data
  | .bool true => "true".data
  | .bool false => "false".data
  | .num n => v8NumberText n
  | .str s => s.data
  | .arr items => v8Join items
  | .obj _ => "[object Object]".data
/-- Array.prototype.join with the separator ",": `null` elements give the empty
string. -/
def v8Join : List JSON → List Char
  | [] => []
  | [.null] => []
  | [x] => v8ToString x
  | .null :: xs => ',' :: v8Join xs
  | x :: xs => v8ToString x ++ ',' :: v8Join xs
end

/-- A host with the messages and conversions of V8, on which Plotly renders every
description. -/
def sampleHost : Host where
  typeErrorMessage := v8TypeErrorMessage
  toStringOther := fun v => String.mk (v8ToString v)
  numberToString := v8NumberToString
  newPlotThrows := fun _ => none

/-- A host on which `Plotly` is not defined: `Plotly.newPlot` throws. -/
def noPlotlyHost : Host :=
  { sampleHost with newPlotThrows := fun _ => some ⟨"Plotly is not defined"⟩ }

def sampleForm : Form :=
  { function := "sin(x)*cos(y)", a := "-3.14", b := "3.14", c := "-3.14", d := "3.14",
    resolution := "50" }

/-- A page as an earlier failed submission leaves it, with a stale plot. -/
def stalePage : DOM :=
  { loadingDisplay := "none", calculateBtnDisabled := false,
    resultsDisplay := "block", errorDisplay := "block",
    errorText := "old error", volumeValue := "1.000000", errorValue := "1.00e-3",
    plotContainer := some (plotDescription none none none "x") }

/-- A page as it is loaded. -/
def freshPage : DOM :=
  { loadingDisplay := "none", calculateBtnDisabled := false,
    resultsDisplay := "none", errorDisplay := "none",
    errorText := "", volumeValue := "", errorValue := "",
    plotContainer := none }

/-- The double written `0.000123`. -/
def sampleVolume : ℚ := 2268949521066275 / 2 ^ 64

/-- The double written `1.2e-05`. -/
def sampleError : ℚ := 1770887431076117 / 2 ^ 67

/-- The members of an envelope that lacks `x`. -/
def membersWithoutX : List (String × JSON) :=
  [("success", .bool true), ("volume", .num (.finite sampleVolume)),
   ("error", .num (.finite sampleError)),
   ("y", .arr [.num (.finite 0), .num (.finite 1)]),
   ("z", .arr [.arr [.num (.finite 0), .num (.finite 1)],
               .arr [.num (.finite 1), .num (.finite 2)]])]

/-- The members of an envelope that lacks `volume`. -/
def membersWithoutVolume : List (String × JSON) :=
  [("success", .bool true), ("error", .num (.finite sampleError)),
   ("x", .arr [.num (.finite 0), .num (.finite 1)]),
   ("y", .arr [.num (.finite 0), .num (.finite 1)]),
   ("z", .arr [.arr [.num (.finite 0), .num (.finite 1)],
               .arr [.num (.finite 1), .num (.finite 2)]])]

/-- The members of an envelope whose volume is the double `1e21`. -/
def membersHugeVolume : List (String × JSON) :=
  [("success", .bool true), ("volume", .num (.finite (10 ^ 21))),
   ("error", .num (.finite sampleError)),
   ("x", .arr [.num (.finite 0), .num (.finite 1)]),
   ("y", .arr [.num (.finite 0), .num (.finite 1)]),
   ("z", .arr [.arr [.num (.finite 0), .num (.finite 1)],
               .arr [.num (.finite 1), .num (.finite 2)]])]

/-- The members of a full success envelope. -/
def successMembers : List (String × JSON) :=
  [("success", .bool true), ("volume", .num (.finite sampleVolume)),
   ("error", .num (.finite sampleError)),
   ("x", .arr [.num (.finite 0), .num (.finite 1)]),
   ("y", .arr [.num (.finite 0), .num (.finite 1)]),
   ("z", .arr [.arr [.num (.finite 0), .num (.finite 1)],
               .arr [.num (.finite 1), .num (.finite 2)]])]

/-- A full success envelope. -/
def successBody : JSON := .obj successMembers

/-- The members of a failure envelope. -/
def failureMembers (message : String) : List (String × JSON) :=
  [("success", .bool false), ("message", .str message)]

/-- A failure envelope. -/
def failureBody (message : String) : JSON := .obj (failureMembers message)


/-! ## Replaying writes -/

@[simp] theorem run_nil (d : DOM) : run [] d = d := rfl

@[simp] theorem run_cons (w : Write) (ws : List Write) (d : DOM) :
    run (w :: ws) d = run ws (w.apply d) := rfl

@[simp] theorem run_append (a b : List Write) (d : DOM) :
    run (a ++ b) d = run b (run a d) := by
  simp [run, List.foldl_append]

theorem run_keeps_busy (ws : List Write) (d : DOM)
    (h : ∀ w ∈ ws, w.isBusyWrite = false) :
    (run ws d).loadingDisplay = d.loadingDisplay ∧
      (run ws d).calculateBtnDisabled = d.calculateBtnDisabled := by
  induction ws generalizing d with
  | nil => simp
  | cons w ws ih =>
    have hw := h w (List.mem_cons_self _ _)
    have hws := ih (w.apply d) (fun u hu => h u (List.mem_cons_of_mem _ hu))
    rw [run_cons, hws.1, hws.2]
    cases w <;> simp_all [Write.isBusyWrite, Write.apply]

/-! ## The shapes of a run -/

theorem displayResults_cases (host : Host) (data : JSON) :
    (∃ e, displayResults host data = ([], some e)) ∨
    (∃ v e, displayResults host data = ([.volumeValue v], some e)) ∨
    (∃ v x, displayResults host data =
      ([.volumeValue v, .errorValue x, .resultsDisplay "block"], none)) := by
  unfold displayResults
  split
  · exact Or.inl ⟨_, rfl⟩
  · split
    · exact Or.inr (Or.inl ⟨_, _, rfl⟩)
    · exact Or.inr (Or.inr ⟨_, _, rfl⟩)

theorem createPlot_cases (host : Host) (data : JSON) (f : String) :
    (∃ e, createPlot host data f = ([], some e)) ∨
    (∃ p, createPlot host data f = ([.newPlot p], none)) := by
  unfold createPlot
  split
  · split
    · exact Or.inl ⟨_, rfl⟩
    · exact Or.inr ⟨_, rfl⟩
  · exact Or.inl ⟨_, rfl⟩
  · exact Or.inl ⟨_, rfl⟩
  · exact Or.inl ⟨_, rfl⟩

theorem tryBlock_parsed (host : Host) (form : Form) (status : ℕ) (data : JSON) :
    tryBlock host form (.response status (.parsed data)) =
      match checkResponse host status data with
      | some e => ([], some e)
      | none =>
        match displayResults host data with
        | (shown, some e) => (shown, some e)
        | (shown, none) =>
          ((shown ++ (createPlot host data form.function).1),
            (createPlot host data form.function).2) := rfl

theorem tryBlock_cases (host : Host) (form : Form) (r : FetchOutcome) :
    (∃ e, tryBlock host form r = ([], some e)) ∨
    (∃ v e, tryBlock host form r = ([.volumeValue v], some e)) ∨
    (∃ v x e, tryBlock host form r =
      ([.volumeValue v, .errorValue x, .resultsDisplay "block"], some e)) ∨
    (∃ v x p, tryBlock host form r =
      ([.volumeValue v, .errorValue x, .resultsDisplay "block", .newPlot p], none)) := by
  cases r with
  | rejected e => exact Or.inl ⟨e, rfl⟩
  | response status body =>
    cases body with
    | unparsable e => exact Or.inl ⟨e, rfl⟩
    | parsed data =>
      rw [tryBlock_parsed]
      cases hc : checkResponse host status data with
      | some e => exact Or.inl ⟨e, rfl⟩
      | none =>
        rcases displayResults_cases host data with ⟨e, h⟩ | ⟨v, e, h⟩ | ⟨v, x, h⟩
        · simp only [h]; exact Or.inl ⟨e, rfl⟩
        · simp only [h]; exact Or.inr (Or.inl ⟨v, e, rfl⟩)
        · simp only [h]
          rcases createPlot_cases host data form.function with ⟨e, hp⟩ | ⟨p, hp⟩
          · simp only [hp]; exact Or.inr (Or.inr (Or.inl ⟨v, x, e, rfl⟩))
          · simp only [hp]; exact Or.inr (Or.inr (Or.inr ⟨v, x, p, rfl⟩))

theorem handling_no_busy (host : Host) (form : Form) (r : FetchOutcome) :
    ∀ w ∈ handling host form r, w.isBusyWrite = false := by
  unfold handling
  rcases tryBlock_cases host form r with ⟨e, h⟩ | ⟨v, e, h⟩ | ⟨v, x, e, h⟩ | ⟨v, x, p, h⟩ <;>
    simp [h, catchBlock, showError, Write.isBusyWrite]

theorem checkResponse_isSome_of_failure (host : Host) (status : ℕ) (data : JSON)
    (h : FetchOutcome.isFailure (.response status (.parsed data)) = true) :
    ∃ e, checkResponse host status data = some e := by
  unfold checkResponse
  cases hok : responseOk status <;> cases data <;>
    simp_all [FetchOutcome.isFailure, getProp, Except.map, truthy]

theorem tryBlock_of_failure (host : Host) (form : Form) (r : FetchOutcome)
    (h : r.isFailure = true) : ∃ e, tryBlock host form r = ([], some e) := by
  cases r with
  | rejected e => exact ⟨e, rfl⟩
  | response status body =>
    cases body with
    | unparsable e => exact ⟨e, rfl⟩
    | parsed data =>
      obtain ⟨e, he⟩ := checkResponse_isSome_of_failure host status data h
      exact ⟨e, by rw [tryBlock_parsed, he]⟩

/-! ## Decimal digits and rounding -/

theorem digitChar_isDigit (k : ℕ) (h : k < 10) : (Nat.digitChar k).isDigit = true := by
  interval_cases k <;> decide

theorem digitValue_digitChar (k : ℕ) (h : k < 10) : digitValue (Nat.digitChar k) = k := by
  interval_cases k <;> decide

theorem toDigitsCore_eq (fuel : ℕ) : ∀ (n : ℕ) (ds : List Char), 0 < n → n < fuel →
    Nat.toDigitsCore 10 fuel n ds = ((Nat.digits 10 n).reverse.map Nat.digitChar) ++ ds := by
  induction fuel with
  | zero => intro n ds _ h; omega
  | succ fuel ih =>
    intro n ds hpos hlt
    rw [Nat.digits_def' (by norm_num) hpos]
    simp only [Nat.toDigitsCore, List.reverse_cons, List.map_append, List.map_cons, List.map_nil,
      List.append_assoc, List.singleton_append]
    by_cases h0 : n / 10 = 0
    · simp [h0]
    · rw [if_neg h0, ih (n / 10) _ (Nat.pos_of_ne_zero h0) (by omega)]

theorem decimalDigits_eq (n : ℕ) (h : 0 < n) :
    decimalDigits n = (Nat.digits 10 n).reverse.map Nat.digitChar := by
  unfold decimalDigits Nat.toDigits
  rw [toDigitsCore_eq (n + 1) n [] h (by omega), List.append_nil]

theorem decimalDigits_zero : decimalDigits 0 = ['0'] := by decide

theorem decimalDigits_isDigit (n : ℕ) : ∀ c ∈ decimalDigits n, c.isDigit = true := by
  rcases Nat.eq_zero_or_pos n with h | h
  · subst h; decide
  · rw [decimalDigits_eq n h]
    intro c hc
    simp only [List.mem_map, List.mem_reverse] at hc
    obtain ⟨k, hk, rfl⟩ := hc
    exact digitChar_isDigit k (Nat.digits_lt_base (by norm_num) hk)

theorem decimalDigits_ne_nil (n : ℕ) : decimalDigits n ≠ [] := by
  rcases Nat.eq_zero_or_pos n with h | h
  · subst h; decide
  · rw [decimalDigits_eq n h]
    simp [Nat.digits_eq_nil_iff_eq_zero]
    omega

theorem digitChar_ne_zero (k : ℕ) (h0 : k ≠ 0) (h : k < 10) : Nat.digitChar k ≠ '0' := by
  interval_cases k <;> first | exact absurd rfl h0 | decide

/-- The decimal representation has no leading zero. -/
theorem decimalDigits_head (n : ℕ) :
    decimalDigits n = ['0'] ∨ (decimalDigits n).head? ≠ some '0' := by
  rcases Nat.eq_zero_or_pos n with h | h
  · subst h; exact Or.inl (by decide)
  · right
    rw [decimalDigits_eq n h]
    have hne : Nat.digits 10 n ≠ [] := by
      rw [Ne, Nat.digits_eq_nil_iff_eq_zero]; omega
    have hlast : (Nat.digits 10 n).getLast hne ≠ 0 :=
      Nat.getLast_digit_ne_zero 10 (by omega)
    have hlt : (Nat.digits 10 n).getLast hne < 10 :=
      Nat.digits_lt_base (by norm_num) (List.getLast_mem hne)
    rw [List.head?_map, List.head?_reverse, List.getLast?_eq_getLast _ hne]
    simp only [Option.map_some', ne_eq, Option.some.injEq]
    exact digitChar_ne_zero _ hlast hlt

theorem decimalValue_append_singleton (cs : List Char) (c : Char) :
    decimalValue (cs ++ [c]) = 10 * decimalValue cs + digitValue c := by
  simp [decimalValue, List.foldl_append]

theorem decimalValue_digits (l : List ℕ) (h : ∀ k ∈ l, k < 10) :
    decimalValue (l.reverse.map Nat.digitChar) = Nat.ofDigits 10 l := by
  induction l with
  | nil => rfl
  | cons a l ih =>
    rw [List.reverse_cons, List.map_append, List.map_cons, List.map_nil,
      decimalValue_append_singleton, ih (fun k hk => h k (List.mem_cons_of_mem _ hk)),
      digitValue_digitChar a (h a (List.mem_cons_self _ _)), Nat.ofDigits_cons]
    ring

theorem decimalValue_decimalDigits (n : ℕ) : decimalValue (decimalDigits n) = n := by
  rcases Nat.eq_zero_or_pos n with h | h
  · subst h; decide
  · rw [decimalDigits_eq n h, decimalValue_digits _ (fun k hk => Nat.digits_lt_base (by norm_num) hk),
      Nat.ofDigits_digits]

theorem decimalDigits_length (n : ℕ) (h : 0 < n) : (decimalDigits n).length = Nat.log 10 n + 1 := by
  rw [decimalDigits_eq n h]
  simp [Nat.digits_len 10 n (by norm_num) (by omega)]

theorem decimalDigits_three (n : ℕ) (h1 : 100 ≤ n) (h2 : n < 1000) :
    ∃ a b c, decimalDigits n = [a, b, c] := by
  have hlen : (decimalDigits n).length = 3 := by
    rw [decimalDigits_length n (by omega)]
    have : Nat.log 10 n = 2 := by
      rw [Nat.log_eq_iff (by norm_num)]
      constructor <;> norm_num <;> omega
    omega
  match hd : decimalDigits n, hlen with
  | [a, b, c], _ => exact ⟨a, b, c, rfl⟩

theorem decimalValue_zeros (j : ℕ) (cs : List Char) :
    decimalValue (List.replicate j '0' ++ cs) = decimalValue cs := by
  induction j with
  | zero => rfl
  | succ j ih =>
    rw [List.replicate_succ, List.cons_append]
    unfold decimalValue at ih ⊢
    rw [List.foldl_cons]
    exact ih

theorem roundHalfUp_near (y : ℚ) (h : 0 ≤ y) :
    |(roundHalfUp y : ℚ) - y| ≤ 1 / 2 := by
  unfold roundHalfUp
  have h1 : ((⌊y + 1 / 2⌋₊ : ℕ) : ℚ) ≤ y + 1 / 2 := Nat.floor_le (by linarith)
  have h2 : y + 1 / 2 < (⌊y + 1 / 2⌋₊ : ℕ) + 1 := Nat.lt_floor_add_one _
  rw [abs_le]
  constructor <;> linarith

/-- The shape of `fixedDigits f x` for `f ≠ 0`. -/
theorem fixedDigits_shape (f : ℕ) (hf : f ≠ 0) (x : ℚ) :
    ∃ ip fp, fixedDigits f x = ip ++ '.' :: fp ∧ ip ≠ [] ∧ (∀ c ∈ ip, c.isDigit = true) ∧
      (ip = ['0'] ∨ ip.head? ≠ some '0') ∧
      fp.length = f ∧ (∀ c ∈ fp, c.isDigit = true) ∧
      decimalValue (ip ++ fp) = roundHalfUp (x * 10 ^ f) := by
  have hm : (if roundHalfUp (x * 10 ^ f) = 0 then ['0'] else decimalDigits (roundHalfUp (x * 10 ^ f)))
      = decimalDigits (roundHalfUp (x * 10 ^ f)) := by
    split
    · rename_i h; rw [h]; rfl
    · rfl
  unfold fixedDigits
  simp only [hm, if_pos hf]
  generalize roundHalfUp (x * 10 ^ f) = n
  have hd := decimalDigits_isDigit n
  have hne := decimalDigits_ne_nil n
  have hval := decimalValue_decimalDigits n
  have hhead := decimalDigits_head n
  generalize decimalDigits n = m at hd hne hval hhead
  have hlen : 0 < m.length := List.length_pos.2 hne
  by_cases hk : m.length ≤ f
  · simp only [if_pos hk]
    refine ⟨_, _, rfl, ?_, ?_, ?_, ?_, ?_, ?_⟩
    · simp [List.take_eq_nil_iff]
      omega
    · intro c hc
      have := List.mem_of_mem_take hc
      rcases List.mem_append.1 this with h | h
      · rw [(List.mem_replicate.1 h).2]; rfl
      · exact hd c h
    · left
      obtain ⟨j, hj⟩ : ∃ j, f + 1 - m.length = j + 1 := ⟨f - m.length, by omega⟩
      have h1 : f + 1 - f = 1 := by omega
      rw [hj, h1, List.replicate_succ, List.cons_append, List.take_succ_cons, List.take_zero]
    · simp
      omega
    · intro c hc
      have := List.mem_of_mem_drop hc
      rcases List.mem_append.1 this with h | h
      · rw [(List.mem_replicate.1 h).2]; rfl
      · exact hd c h
    · rw [List.take_append_drop, decimalValue_zeros, hval]
  · simp only [if_neg hk]
    refine ⟨_, _, rfl, ?_, ?_, ?_, ?_, ?_, ?_⟩
    · intro h
      have hl := congrArg List.length h
      simp at hl
      omega
    · exact fun c hc => hd c (List.mem_of_mem_take hc)
    · right
      rcases hhead with h | h
      · rw [h] at hk
        simp at hk
        omega
      · obtain ⟨j, hj⟩ : ∃ j, m.length - f = j + 1 := ⟨m.length - f - 1, by omega⟩
        rw [hj]
        cases m with
        | nil => exact absurd rfl hne
        | cons c cs => simpa using h
    · simp
      omega
    · exact fun c hc => hd c (List.mem_of_mem_drop hc)
    · rw [List.take_append_drop, hval]

theorem roundHalfUp_bounds (y : ℚ) (h1 : 100 ≤ y) (h2 : y < 1000) :
    100 ≤ roundHalfUp y ∧ roundHalfUp y ≤ 1000 := by
  unfold roundHalfUp
  constructor
  · apply Nat.le_floor
    push_cast
    linarith
  · apply Nat.lt_succ_iff.1
    rw [Nat.floor_lt (by linarith)]
    push_cast
    linarith

theorem exponentAndDigits_bounds (x : ℚ) (hx : 0 < x) :
    100 ≤ (exponentAndDigits 2 x).2 ∧ (exponentAndDigits 2 x).2 < 1000 := by
  have hlo : (10 : ℚ) ^ Int.log 10 x ≤ x := by
    have := Int.zpow_log_le_self (b := 10) (by norm_num) hx
    simpa using this
  have hhi : x < (10 : ℚ) ^ (Int.log 10 x + 1) := by
    have := Int.lt_zpow_succ_log_self (b := 10) (by norm_num) x
    simpa using this
  unfold exponentAndDigits
  generalize Int.log 10 x = e at hlo hhi
  have hpos : (0 : ℚ) < 10 ^ (e - ((2 : ℕ) : ℤ)) := by positivity
  have h1 : (10 : ℚ) ^ e = 100 * 10 ^ (e - ((2 : ℕ) : ℤ)) := by
    rw [zpow_sub₀ (by norm_num)]
    norm_num
    ring
  have h2 : (10 : ℚ) ^ (e + 1) = 1000 * 10 ^ (e - ((2 : ℕ) : ℤ)) := by
    rw [zpow_sub₀ (by norm_num), zpow_add₀ (by norm_num)]
    norm_num
    ring
  have hy1 : (100 : ℚ) ≤ x / 10 ^ (e - ((2 : ℕ) : ℤ)) := by
    rw [le_div_iff₀ hpos]; linarith
  have hy2 : x / 10 ^ (e - ((2 : ℕ) : ℤ)) < 1000 := by
    rw [div_lt_iff₀ hpos]; linarith
  have hb := roundHalfUp_bounds _ hy1 hy2
  by_cases hn : roundHalfUp (x / 10 ^ (e - ((2 : ℕ) : ℤ))) = 10 ^ (2 + 1)
  · rw [if_pos hn]
    norm_num
  · rw [if_neg hn]
    have h1000 : (10 : ℕ) ^ (2 + 1) = 1000 := by norm_num
    rw [h1000] at hn
    exact ⟨hb.1, lt_of_le_of_ne hb.2 hn⟩

theorem roundHalfUp_nearest (y : ℚ) (hy : 0 ≤ y) (M : ℕ) :
    |(roundHalfUp y : ℚ) - y| ≤ |(M : ℚ) - y| := by
  have h := roundHalfUp_near y hy
  by_cases hM : M = roundHalfUp y
  · rw [hM]
  · have h1 : (1 : ℚ) ≤ |(M : ℚ) - roundHalfUp y| := by
      have hne : (M : ℤ) ≠ (roundHalfUp y : ℤ) := by exact_mod_cast hM
      have h2 : (1 : ℤ) ≤ |(M : ℤ) - roundHalfUp y| := Int.one_le_abs (sub_ne_zero.2 hne)
      exact_mod_cast h2
    have h3 : |(M : ℚ) - roundHalfUp y| ≤ |(M : ℚ) - y| + |(roundHalfUp y : ℚ) - y| := by
      have := abs_sub_le (M : ℚ) y (roundHalfUp y)
      rwa [abs_sub_comm y] at this
    linarith

/-- The number `n * 10 ^ (e - 2)` that `exponentAndDigits 2 x` stands for. -/
theorem exponentAndDigits_value (x : ℚ) :
    ((exponentAndDigits 2 x).2 : ℚ) * 10 ^ ((exponentAndDigits 2 x).1 - 2)
      = (roundHalfUp (x / 10 ^ (Int.log 10 x - 2)) : ℚ) * 10 ^ (Int.log 10 x - 2) := by
  unfold exponentAndDigits
  simp only [Nat.cast_ofNat]
  by_cases hn : roundHalfUp (x / 10 ^ (Int.log 10 x - 2)) = 10 ^ (2 + 1)
  · rw [if_pos hn, hn]
    have h : Int.log 10 x + 1 - 2 = (Int.log 10 x - 2) + 1 := by ring
    simp only [h]
    rw [zpow_add₀ (by norm_num : (10 : ℚ) ≠ 0)]
    push_cast
    ring
  · rw [if_neg hn]

/-- No three-digit numeral times a power of ten is nearer to `x` than the one
`exponentAndDigits 2 x` stands for. -/
theorem exponentAndDigits_optimal (x : ℚ) (hx : 0 < x) (m : ℕ) (F : ℤ)
    (h2 : m < 1000) :
    |((exponentAndDigits 2 x).2 : ℚ) * 10 ^ ((exponentAndDigits 2 x).1 - 2) - x|
      ≤ |(m : ℚ) * 10 ^ (F - 2) - x| := by
  rw [exponentAndDigits_value]
  have hlo : (10 : ℚ) ^ Int.log 10 x ≤ x := by
    have := Int.zpow_log_le_self (b := 10) (by norm_num) hx
    simpa using this
  generalize Int.log 10 x = e at hlo
  have hu : (0 : ℚ) < 10 ^ (e - 2) := by positivity
  have h100 : (10 : ℚ) ^ e = 100 * 10 ^ (e - 2) := by
    rw [zpow_sub₀ (by norm_num)]
    norm_num
    ring
  have hy : (0 : ℚ) ≤ x / 10 ^ (e - 2) := by positivity
  have hxy : x = x / 10 ^ (e - 2) * 10 ^ (e - 2) := by field_simp
  have hy100 : (100 : ℚ) ≤ x / 10 ^ (e - 2) := by
    rw [le_div_iff₀ hu]; linarith
  generalize x / 10 ^ (e - 2) = y at hy hxy hy100
  have key : ∀ M : ℕ, |(roundHalfUp y : ℚ) * 10 ^ (e - 2) - x| ≤ |(M : ℚ) * 10 ^ (e - 2) - x| := by
    intro M
    have hn := roundHalfUp_nearest y hy M
    have e1 : (roundHalfUp y : ℚ) * 10 ^ (e - 2) - x = ((roundHalfUp y : ℚ) - y) * 10 ^ (e - 2) := by
      rw [hxy]; ring
    have e2 : (M : ℚ) * 10 ^ (e - 2) - x = ((M : ℚ) - y) * 10 ^ (e - 2) := by
      rw [hxy]; ring
    rw [e1, e2, abs_mul, abs_mul, abs_of_pos hu]
    exact mul_le_mul_of_nonneg_right hn hu.le
  rcases le_or_lt e F with hF | hF
  · obtain ⟨j, hj⟩ := Int.eq_ofNat_of_zero_le (sub_nonneg.2 hF)
    have hpow : (10 : ℚ) ^ (F - 2) = ((10 ^ j : ℕ) : ℚ) * 10 ^ (e - 2) := by
      have : F - 2 = (j : ℤ) + (e - 2) := by omega
      rw [this, zpow_add₀ (by norm_num : (10 : ℚ) ≠ 0), zpow_natCast]
      push_cast
      ring
    have := key (m * 10 ^ j)
    rw [hpow]
    push_cast at this ⊢
    rw [← mul_assoc]
    exact this
  · have hle : (10 : ℚ) ^ (F + 1) ≤ 10 ^ e := zpow_le_zpow_right₀ (by norm_num) (by omega)
    have h1000 : (10 : ℚ) ^ (F + 1) = 1000 * 10 ^ (F - 2) := by
      have : F + 1 = 3 + (F - 2) := by ring
      rw [this, zpow_add₀ (by norm_num : (10 : ℚ) ≠ 0)]
      norm_num
    have hv : (0 : ℚ) < 10 ^ (F - 2) := by positivity
    have hm : (m : ℚ) * 10 ^ (F - 2) ≤ 1000 * 10 ^ (F - 2) := by
      apply mul_le_mul_of_nonneg_right _ hv.le
      exact_mod_cast h2.le
    have hk := key 100
    have hcand : (m : ℚ) * 10 ^ (F - 2) ≤ 100 * 10 ^ (e - 2) := by linarith
    have hx100 : (100 : ℚ) * 10 ^ (e - 2) ≤ x := by linarith
    push_cast at hk
    rw [abs_of_nonpos (by linarith : (100 : ℚ) * 10 ^ (e - 2) - x ≤ 0)] at hk
    rw [abs_of_nonpos (by linarith : (m : ℚ) * 10 ^ (F - 2) - x ≤ 0)]
    linarith

/-! ## The claims -/

/-- C1: after a single submission that fails (the network call rejects, the body
is not JSON, or the parsed body's `success` is not truthy) the plot container is
empty, the error surface is displayed and the result surface is not, whatever the
page showed before. -/
theorem failure_clears_plot_shows_error (host : Host) (form : Form) (r : FetchOutcome)
    (d : DOM) (h : r.isFailure = true) :
    (run (calculateAndPlot host form r) d).plotContainer = none ∧
    (run (calculateAndPlot host form r) d).errorDisplay = "block" ∧
    (run (calculateAndPlot host form r) d).resultsDisplay = "none" := by
  obtain ⟨e, he⟩ := tryBlock_of_failure host form r h
  simp [calculateAndPlot, syncPart, resumePart, handling, he, catchBlock, showError,
    finallyBlock, hideMessages, Write.apply]

/-- C1, at a rejected network call on a page that shows a result, an error and a
plot. -/
theorem failure_clears_plot_shows_error_witness :
    (FetchOutcome.rejected ⟨"Failed to fetch"⟩).isFailure = true ∧
    stalePage.resultsDisplay = "block" ∧ stalePage.plotContainer.isSome = true ∧
    ((run (calculateAndPlot sampleHost sampleForm (.rejected ⟨"Failed to fetch"⟩))
        stalePage).plotContainer = none ∧
     (run (calculateAndPlot sampleHost sampleForm (.rejected ⟨"Failed to fetch"⟩))
        stalePage).errorDisplay = "block" ∧
     (run (calculateAndPlot sampleHost sampleForm (.rejected ⟨"Failed to fetch"⟩))
        stalePage).resultsDisplay = "none") :=
  ⟨by decide, rfl, rfl,
    failure_clears_plot_shows_error sampleHost sampleForm _ stalePage (by decide)⟩

/-- C3: in a single submission the busy indicator is displayed and the submit
control disabled when the synchronous part ends and after every write of the
handling of the response, whichever path it takes; when `calculateAndPlot`
finishes the indicator is hidden and the control enabled. -/
theorem busy_during_handling_idle_after (host : Host) (form : Form) (r : FetchOutcome)
    (d : DOM) :
    (∀ p, p <+: handling host form r →
      (run (syncPart ++ p) d).loadingDisplay = "block" ∧
      (run (syncPart ++ p) d).calculateBtnDisabled = true) ∧
    (run (calculateAndPlot host form r) d).loadingDisplay = "none" ∧
    (run (calculateAndPlot host form r) d).calculateBtnDisabled = false := by
  refine ⟨fun p hp => ?_, ?_⟩
  · have hkeep := run_keeps_busy p (run syncPart d)
      (fun w hw => handling_no_busy host form r w (hp.subset hw))
    rw [run_append, hkeep.1, hkeep.2]
    simp [syncPart, hideMessages, Write.apply]
  · simp [calculateAndPlot, resumePart, finallyBlock, Write.apply]

/-- The run of the `try` block on a 2xx response whose body has a truthy
`success` and numeric `volume` and `error`, when Plotly renders the plot. -/
theorem tryBlock_of_success (host : Host) (form : Form) (status : ℕ)
    (members : List (String × JSON)) (v e : JSNumber)
    (hok : responseOk status = true)
    (hs : truthy (members.lookup "success") = true)
    (hv : members.lookup "volume" = some (.num v))
    (he : members.lookup "error" = some (.num e))
    (hp : host.newPlotThrows (plotDescription (members.lookup "x") (members.lookup "y")
      (members.lookup "z") form.function) = none) :
    tryBlock host form (.response status (.parsed (.obj members))) =
      ([.volumeValue (toFixed host 6 v), .errorValue (toExponential 2 e),
        .resultsDisplay "block",
        .newPlot (plotDescription (members.lookup "x") (members.lookup "y")
          (members.lookup "z") form.function)], none) := by
  have hc : checkResponse host status (.obj members) = none := by
    simp [checkResponse, hok, getProp, Except.map, hs]
  have hd : displayResults host (.obj members) =
      ([.volumeValue (toFixed host 6 v), .errorValue (toExponential 2 e),
        .resultsDisplay "block"], none) := by
    simp [displayResults, getProp, hv, he, Except.bind, callToFixed, callToExponential]
  have hc2 : createPlot host (.obj members) form.function =
      ([.newPlot (plotDescription (members.lookup "x") (members.lookup "y")
          (members.lookup "z") form.function)], none) := by
    simp [createPlot, getProp, hp]
  rw [tryBlock_parsed, hc]
  simp only [hd, hc2]
  rfl

/-- C2 (amended): after a single submission whose response has a 2xx status and a
parsed body with a truthy `success` and numeric `volume` and `error`, and whose
plot Plotly renders without throwing, the error surface is hidden and the result
surface displayed, whatever the page showed before; the result texts are the
formatted volume and error and the container holds the plot. -/
theorem success_hides_error_shows_result (host : Host) (form : Form) (status : ℕ)
    (members : List (String × JSON)) (v e : JSNumber) (d : DOM)
    (hok : responseOk status = true)
    (hs : truthy (members.lookup "success") = true)
    (hv : members.lookup "volume" = some (.num v))
    (he : members.lookup "error" = some (.num e))
    (hp : host.newPlotThrows (plotDescription (members.lookup "x") (members.lookup "y")
      (members.lookup "z") form.function) = none) :
    (run (calculateAndPlot host form (.response status (.parsed (.obj members)))) d).errorDisplay
      = "none" ∧
    (run (calculateAndPlot host form (.response status (.parsed (.obj members)))) d).resultsDisplay
      = "block" ∧
    (run (calculateAndPlot host form (.response status (.parsed (.obj members)))) d).volumeValue
      = toFixed host 6 v ∧
    (run (calculateAndPlot host form (.response status (.parsed (.obj members)))) d).errorValue
      = toExponential 2 e ∧
    (run (calculateAndPlot host form (.response status (.parsed (.obj members)))) d).plotContainer
      = some (plotDescription (members.lookup "x") (members.lookup "y")
          (members.lookup "z") form.function) := by
  have ht := tryBlock_of_success host form status members v e hok hs hv he hp
  simp [calculateAndPlot, syncPart, resumePart, handling, ht, catchBlock, finallyBlock,
    hideMessages, Write.apply]

/-- C2 (amended), at status 200 and the full envelope, on a page that shows an
error left by an earlier submission. -/
theorem success_hides_error_shows_result_witness :
    stalePage.errorDisplay = "block" ∧
    (run (calculateAndPlot sampleHost sampleForm
      (.response 200 (.parsed (.obj successMembers)))) stalePage).errorDisplay = "none" ∧
    (run (calculateAndPlot sampleHost sampleForm
      (.response 200 (.parsed (.obj successMembers)))) stalePage).resultsDisplay = "block" :=
  ⟨rfl,
   (success_hides_error_shows_result sampleHost sampleForm 200 successMembers
      (.finite sampleVolume) (.finite sampleError) stalePage
      (by decide) (by decide) rfl rfl rfl).1,
   (success_hides_error_shows_result sampleHost sampleForm 200 successMembers
      (.finite sampleVolume) (.finite sampleError) stalePage
      (by decide) (by decide) rfl rfl rfl).2.1⟩

/-- C2 as stated fails: the full success envelope under status 500 ends with the
error surface displayed and the result surface hidden, and under status 200 on a
host where `Plotly.newPlot` throws it ends with the error surface displayed. -/
theorem success_body_error_status_counterexample :
    (run (calculateAndPlot sampleHost sampleForm
      (.response 500 (.parsed successBody))) freshPage).errorDisplay = "block" ∧
    (run (calculateAndPlot sampleHost sampleForm
      (.response 500 (.parsed successBody))) freshPage).resultsDisplay = "none" ∧
    (run (calculateAndPlot noPlotlyHost sampleForm
      (.response 200 (.parsed successBody))) freshPage).errorDisplay = "block" := by
  decide

/-- C4 (amended): when the parsed body has `success` false and a message string
`m`, under every status, the error surface shows exactly `m` if `m` is not empty
and the fallback text if it is. -/
theorem failure_message_verbatim (host : Host) (form : Form) (status : ℕ)
    (members : List (String × JSON)) (m : String) (d : DOM)
    (hs : members.lookup "success" = some (.bool false))
    (hm : members.lookup "message" = some (.str m)) :
    (m ≠ "" →
      (run (calculateAndPlot host form (.response status (.parsed (.obj members)))) d).errorText
        = m) ∧
    (m = "" →
      (run (calculateAndPlot host form (.response status (.parsed (.obj members)))) d).errorText
        = fallbackMessage) := by
  constructor
  · intro hne
    have hc : checkResponse host status (.obj members) = some ⟨m⟩ := by
      cases hok : responseOk status <;>
        simp [checkResponse, hok, getProp, Except.map, hs, hm, truthy, hne, toStringValue]
    simp [calculateAndPlot, syncPart, resumePart, handling, tryBlock_parsed, hc, catchBlock,
      showError, finallyBlock, hideMessages, Write.apply]
  · intro he
    have hc : checkResponse host status (.obj members) = some ⟨fallbackMessage⟩ := by
      cases hok : responseOk status <;>
        simp [checkResponse, hok, getProp, Except.map, hs, hm, truthy, he]
    simp [calculateAndPlot, syncPart, resumePart, handling, tryBlock_parsed, hc, catchBlock,
      showError, finallyBlock, hideMessages, Write.apply]

/-- C4 (amended), at the message of scenario 2 under status 400 and at the empty
message under status 200. -/
theorem failure_message_verbatim_witness :
    (run (calculateAndPlot sampleHost sampleForm
      (.response 400 (.parsed (failureBody "Invalid domain: a must be less than b"))))
      freshPage).errorText = "Invalid domain: a must be less than b" ∧
    (run (calculateAndPlot sampleHost sampleForm
      (.response 200 (.parsed (failureBody "")))) freshPage).errorText
      = "Error al procesar la solicitud" :=
  ⟨(failure_message_verbatim sampleHost sampleForm 400
      (failureMembers "Invalid domain: a must be less than b")
      "Invalid domain: a must be less than b" freshPage rfl rfl).1 (by decide),
   (failure_message_verbatim sampleHost sampleForm 200 (failureMembers "") "" freshPage
      rfl rfl).2 rfl⟩

/-- C4 as stated fails at the empty message: under status 200, where
`data.success` is read, and under status 400 the error surface shows the fallback
text, not the message. -/
theorem empty_message_counterexample :
    (run (calculateAndPlot sampleHost sampleForm
      (.response 200 (.parsed (failureBody "")))) freshPage).errorText
      = "Error al procesar la solicitud" ∧
    (run (calculateAndPlot sampleHost sampleForm
      (.response 200 (.parsed (failureBody "")))) freshPage).errorText ≠ "" ∧
    (run (calculateAndPlot sampleHost sampleForm
      (.response 400 (.parsed (failureBody "")))) freshPage).errorText ≠ "" := by
  decide

/-- C5 (amended): lines 54-56 throw exactly when the status is outside 200-299 or
`success` is not truthy; two responses with the same body whose statuses are both
inside or both outside 200-299 are handled identically. -/
theorem failure_decided_by_status_and_success (host : Host) (status : ℕ) (data : JSON) :
    ((checkResponse host status data).isSome = true ↔
      (responseOk status = false ∨ truthy (successField data) = false)) ∧
    (∀ (form : Form) (status' : ℕ) (body : Body), responseOk status' = responseOk status →
      calculateAndPlot host form (.response status' body) =
        calculateAndPlot host form (.response status body)) := by
  constructor
  · have hnone : truthy none = false := rfl
    unfold checkResponse
    cases hok : responseOk status
    · cases hm : getProp host data "message" <;> simp
    · cases data with
      | obj members =>
        cases h : truthy (List.lookup "success" members) <;>
          simp [getProp, Except.map, successField, h]
      | null => simp [getProp, Except.map, successField, hnone]
      | bool b => simp [getProp, Except.map, successField, hnone]
      | num n => simp [getProp, Except.map, successField, hnone]
      | str s => simp [getProp, Except.map, successField, hnone]
      | arr items => simp [getProp, Except.map, successField, hnone]
  · intro form status' body h
    cases body with
    | unparsable e => rfl
    | parsed data =>
      simp only [calculateAndPlot, resumePart, handling, tryBlock_parsed, checkResponse, h]

/-- C5 as stated fails: the same full envelope is presented under status 200 and
reported as an error under status 500, and a body whose `success` is the number 1
is not treated as a failure. -/
theorem status_decides_counterexample :
    (run (calculateAndPlot sampleHost sampleForm
      (.response 200 (.parsed successBody))) freshPage).errorDisplay = "none" ∧
    (run (calculateAndPlot sampleHost sampleForm
      (.response 500 (.parsed successBody))) freshPage).errorDisplay = "block" ∧
    checkResponse sampleHost 200 (.obj [("success", .num (.finite 1))]) = none := by
  decide

/-- C6 (amended): when the network call rejects, and when the body is not JSON,
the error surface is displayed with the message of the error the promise rejected
with, whatever that message is. -/
theorem transport_error_message_shown (host : Host) (form : Form) (e : JSError)
    (status : ℕ) (d : DOM) :
    ((run (calculateAndPlot host form (.rejected e)) d).errorText = e.message ∧
      (run (calculateAndPlot host form (.rejected e)) d).errorDisplay = "block") ∧
    ((run (calculateAndPlot host form (.response status (.unparsable e))) d).errorText
        = e.message ∧
      (run (calculateAndPlot host form (.response status (.unparsable e))) d).errorDisplay
        = "block") := by
  constructor <;>
    simp [calculateAndPlot, syncPart, resumePart, handling, tryBlock, catchBlock,
      showError, finallyBlock, hideMessages, Write.apply]

/-- C6 as stated fails: a rejected call and an unreadable body show each its own
error message, neither of them the fallback text. -/
theorem transport_error_fallback_counterexample :
    (run (calculateAndPlot sampleHost sampleForm (.rejected ⟨"Failed to fetch"⟩))
      freshPage).errorText = "Failed to fetch" ∧
    (run (calculateAndPlot sampleHost sampleForm
      (.response 200 (.unparsable ⟨"Unexpected token 'o', \"not json\" is not valid JSON"⟩)))
      freshPage).errorText = "Unexpected token 'o', \"not json\" is not valid JSON" ∧
    "Failed to fetch" ≠ fallbackMessage ∧
    "Unexpected token 'o', \"not json\" is not valid JSON" ≠ fallbackMessage := by
  decide

/-- The run of the `try` block when `volume` is missing or is not a number. -/
theorem tryBlock_of_bad_volume (host : Host) (form : Form) (status : ℕ)
    (members : List (String × JSON))
    (hok : responseOk status = true)
    (hs : truthy (members.lookup "success") = true)
    (hv : ∀ v, members.lookup "volume" ≠ some (.num v)) :
    tryBlock host form (.response status (.parsed (.obj members))) =
      ([], some ⟨host.typeErrorMessage (members.lookup "volume") "data.volume" "toFixed"⟩) := by
  have hc : checkResponse host status (.obj members) = none := by
    simp [checkResponse, hok, getProp, Except.map, hs]
  have hcall : callToFixed host (members.lookup "volume") =
      .error ⟨host.typeErrorMessage (members.lookup "volume") "data.volume" "toFixed"⟩ := by
    unfold callToFixed
    split
    · rename_i n h
      exact absurd h (hv n)
    · rfl
  have hd : displayResults host (.obj members) =
      ([], some ⟨host.typeErrorMessage (members.lookup "volume") "data.volume" "toFixed"⟩) := by
    simp [displayResults, getProp, Except.bind, hcall]
  rw [tryBlock_parsed, hc]
  simp only [hd]

/-- The run of the `try` block when `volume` is a number and `error` is missing
or is not a number. -/
theorem tryBlock_of_bad_error (host : Host) (form : Form) (status : ℕ)
    (members : List (String × JSON)) (v : JSNumber)
    (hok : responseOk status = true)
    (hs : truthy (members.lookup "success") = true)
    (hv : members.lookup "volume" = some (.num v))
    (he : ∀ e, members.lookup "error" ≠ some (.num e)) :
    tryBlock host form (.response status (.parsed (.obj members))) =
      ([.volumeValue (toFixed host 6 v)],
        some ⟨host.typeErrorMessage (members.lookup "error") "data.error" "toExponential"⟩) := by
  have hc : checkResponse host status (.obj members) = none := by
    simp [checkResponse, hok, getProp, Except.map, hs]
  have hcall : callToExponential host (members.lookup "error") =
      .error ⟨host.typeErrorMessage (members.lookup "error") "data.error" "toExponential"⟩ := by
    unfold callToExponential
    split
    · rename_i n h
      exact absurd h (he n)
    · rfl
  have hd : displayResults host (.obj members) =
      ([.volumeValue (toFixed host 6 v)],
        some ⟨host.typeErrorMessage (members.lookup "error") "data.error" "toExponential"⟩) := by
    simp [displayResults, getProp, Except.bind, hv, callToFixed, hcall]
  rw [tryBlock_parsed, hc]
  simp only [hd]

/-- The run of the `try` block on a 2xx response whose body has a truthy
`success` and numeric `volume` and `error`, when `Plotly.newPlot` throws. -/
theorem tryBlock_of_plot_throw (host : Host) (form : Form) (status : ℕ)
    (members : List (String × JSON)) (v e : JSNumber) (err : JSError)
    (hok : responseOk status = true)
    (hs : truthy (members.lookup "success") = true)
    (hv : members.lookup "volume" = some (.num v))
    (he : members.lookup "error" = some (.num e))
    (hp : host.newPlotThrows (plotDescription (members.lookup "x") (members.lookup "y")
      (members.lookup "z") form.function) = some err) :
    tryBlock host form (.response status (.parsed (.obj members))) =
      ([.volumeValue (toFixed host 6 v), .errorValue (toExponential 2 e),
        .resultsDisplay "block"], some err) := by
  have hc : checkResponse host status (.obj members) = none := by
    simp [checkResponse, hok, getProp, Except.map, hs]
  have hd : displayResults host (.obj members) =
      ([.volumeValue (toFixed host 6 v), .errorValue (toExponential 2 e),
        .resultsDisplay "block"], none) := by
    simp [displayResults, getProp, hv, he, Except.bind, callToFixed, callToExponential]
  have hc2 : createPlot host (.obj members) form.function = ([], some err) := by
    simp [createPlot, getProp, hp]
  rw [tryBlock_parsed, hc]
  simp only [hd, hc2]
  rfl

/-- C7 (amended): on a 2xx response whose body has a truthy `success`,
* when `volume` is missing or is not a number, and when `volume` is a number and
  `error` is missing or is not a number, the submission fails: the error surface
  is displayed with the engine's `TypeError` message, the result surface stays
  hidden and the plot container is empty;
* when `volume` and `error` are numbers, nothing checks `x`, `y` and `z`: the
  result surface is displayed and Plotly is given the description built from
  `data.x`, `data.y` and `data.z` as they are, `undefined` included; if Plotly
  renders it the error surface is hidden and the container holds that plot, and if
  Plotly throws the error surface is displayed with the thrown message and the
  container is empty. -/
theorem missing_fields_handling (host : Host) (form : Form) (status : ℕ)
    (members : List (String × JSON)) (d : DOM)
    (hok : responseOk status = true)
    (hs : truthy (members.lookup "success") = true) :
    ((∀ v, members.lookup "volume" ≠ some (.num v)) →
      (run (calculateAndPlot host form (.response status (.parsed (.obj members)))) d).errorText
        = host.typeErrorMessage (members.lookup "volume") "data.volume" "toFixed" ∧
      (run (calculateAndPlot host form (.response status (.parsed (.obj members)))) d).errorDisplay
        = "block" ∧
      (run (calculateAndPlot host form (.response status (.parsed (.obj members)))) d).resultsDisplay
        = "none" ∧
      (run (calculateAndPlot host form (.response status (.parsed (.obj members)))) d).plotContainer
        = none) ∧
    (∀ v, members.lookup "volume" = some (.num v) →
      (∀ e, members.lookup "error" ≠ some (.num e)) →
      (run (calculateAndPlot host form (.response status (.parsed (.obj members)))) d).errorText
        = host.typeErrorMessage (members.lookup "error") "data.error" "toExponential" ∧
      (run (calculateAndPlot host form (.response status (.parsed (.obj members)))) d).errorDisplay
        = "block" ∧
      (run (calculateAndPlot host form (.response status (.parsed (.obj members)))) d).resultsDisplay
        = "none" ∧
      (run (calculateAndPlot host form (.response status (.parsed (.obj members)))) d).plotContainer
        = none) ∧
    (∀ v e, members.lookup "volume" = some (.num v) → members.lookup "error" = some (.num e) →
      host.newPlotThrows (plotDescription (members.lookup "x") (members.lookup "y")
        (members.lookup "z") form.function) = none →
      (run (calculateAndPlot host form (.response status (.parsed (.obj members)))) d).resultsDisplay
        = "block" ∧
      (run (calculateAndPlot host form (.response status (.parsed (.obj members)))) d).errorDisplay
        = "none" ∧
      (run (calculateAndPlot host form (.response status (.parsed (.obj members)))) d).plotContainer
        = some (plotDescription (members.lookup "x") (members.lookup "y")
            (members.lookup "z") form.function)) ∧
    (∀ v e err, members.lookup "volume" = some (.num v) →
      members.lookup "error" = some (.num e) →
      host.newPlotThrows (plotDescription (members.lookup "x") (members.lookup "y")
        (members.lookup "z") form.function) = some err →
      (run (calculateAndPlot host form (.response status (.parsed (.obj members)))) d).resultsDisplay
        = "block" ∧
      (run (calculateAndPlot host form (.response status (.parsed (.obj members)))) d).errorDisplay
        = "block" ∧
      (run (calculateAndPlot host form (.response status (.parsed (.obj members)))) d).errorText
        = err.message ∧
      (run (calculateAndPlot host form (.response status (.parsed (.obj members)))) d).plotContainer
        = none) := by
  refine ⟨fun hv => ?_, fun v hv he => ?_, fun v e hv he hp => ?_,
    fun v e err hv he hp => ?_⟩
  · have ht := tryBlock_of_bad_volume host form status members hok hs hv
    simp [calculateAndPlot, syncPart, resumePart, handling, ht, catchBlock, showError,
      finallyBlock, hideMessages, Write.apply]
  · have ht := tryBlock_of_bad_error host form status members v hok hs hv he
    simp [calculateAndPlot, syncPart, resumePart, handling, ht, catchBlock, showError,
      finallyBlock, hideMessages, Write.apply]
  · have ht := tryBlock_of_success host form status members v e hok hs hv he hp
    simp [calculateAndPlot, syncPart, resumePart, handling, ht, catchBlock, finallyBlock,
      hideMessages, Write.apply]
  · have ht := tryBlock_of_plot_throw host form status members v e err hok hs hv he hp
    simp [calculateAndPlot, syncPart, resumePart, handling, ht, catchBlock, showError,
      finallyBlock, hideMessages, Write.apply]

/-- C7 (amended), at an envelope without `x`: where Plotly renders, the results
are displayed and the error surface hidden; where Plotly throws, the results are
displayed beside the error. -/
theorem missing_fields_handling_witness :
    membersWithoutX.lookup "x" = none ∧
    (run (calculateAndPlot sampleHost sampleForm
      (.response 200 (.parsed (.obj membersWithoutX)))) freshPage).resultsDisplay = "block" ∧
    (run (calculateAndPlot sampleHost sampleForm
      (.response 200 (.parsed (.obj membersWithoutX)))) freshPage).errorDisplay = "none" ∧
    (run (calculateAndPlot noPlotlyHost sampleForm
      (.response 200 (.parsed (.obj membersWithoutX)))) freshPage).resultsDisplay = "block" ∧
    (run (calculateAndPlot noPlotlyHost sampleForm
      (.response 200 (.parsed (.obj membersWithoutX)))) freshPage).errorDisplay = "block" :=
  ⟨rfl,
   ((missing_fields_handling sampleHost sampleForm 200 membersWithoutX freshPage
      (by decide) (by decide)).2.2.1 (.finite sampleVolume) (.finite sampleError)
      rfl rfl rfl).1,
   ((missing_fields_handling sampleHost sampleForm 200 membersWithoutX freshPage
      (by decide) (by decide)).2.2.1 (.finite sampleVolume) (.finite sampleError)
      rfl rfl rfl).2.1,
   ((missing_fields_handling noPlotlyHost sampleForm 200 membersWithoutX freshPage
      (by decide) (by decide)).2.2.2 (.finite sampleVolume) (.finite sampleError)
      ⟨"Plotly is not defined"⟩ rfl rfl rfl).1,
   ((missing_fields_handling noPlotlyHost sampleForm 200 membersWithoutX freshPage
      (by decide) (by decide)).2.2.2 (.finite sampleVolume) (.finite sampleError)
      ⟨"Plotly is not defined"⟩ rfl rfl rfl).2.1⟩

/-- C7 as stated fails: an envelope without `x` ends with the result surface
displayed, the error surface hidden and a plot in the container; an envelope
without `volume` ends with the engine's `TypeError` message on the error surface,
not the fallback text. -/
theorem missing_field_counterexample :
    (run (calculateAndPlot sampleHost sampleForm
      (.response 200 (.parsed (.obj membersWithoutX)))) freshPage).resultsDisplay = "block" ∧
    (run (calculateAndPlot sampleHost sampleForm
      (.response 200 (.parsed (.obj membersWithoutX)))) freshPage).errorDisplay = "none" ∧
    (run (calculateAndPlot sampleHost sampleForm
      (.response 200 (.parsed (.obj membersWithoutX)))) freshPage).plotContainer.isSome
      = true ∧
    (run (calculateAndPlot sampleHost sampleForm
      (.response 200 (.parsed (.obj membersWithoutVolume)))) freshPage).errorText
      = "Cannot read properties of undefined (reading 'toFixed')" ∧
    (run (calculateAndPlot sampleHost sampleForm
      (.response 200 (.parsed (.obj membersWithoutVolume)))) freshPage).errorText
      ≠ fallbackMessage := by
  decide

/-- C9 (amended): the description `createPlot` hands to Plotly has as title text
"Superficie z = " followed by the function string verbatim. -/
theorem plot_title_text (host : Host) (data : JSON) (f : String) (p : PlotDescription)
    (h : Write.newPlot p ∈ (createPlot host data f).1) :
    p.layout.title.text = "Superficie z = " ++ f := by
  unfold createPlot at h
  split at h
  · split at h
    · simp at h
    · simp only [List.mem_singleton, Write.newPlot.injEq] at h
      rw [h]
      rfl
  · simp at h
  · simp at h
  · simp at h

/-- C9 (amended), at the function of scenario 1. -/
theorem plot_title_text_witness :
    (plotDescription (successMembers.lookup "x") (successMembers.lookup "y")
      (successMembers.lookup "z") "sin(x)*cos(y)").layout.title.text
      = "Superficie z = " ++ "sin(x)*cos(y)" :=
  plot_title_text sampleHost successBody "sin(x)*cos(y)" _ (List.Mem.head _)

/-- C9 as stated fails: for "sin(x)*cos(y)" the title of the plot rendered by a
successful submission is "Superficie z = sin(x)*cos(y)", not
"Surface z = sin(x)*cos(y)". -/
theorem plot_title_counterexample :
    ((run (calculateAndPlot sampleHost sampleForm
      (.response 200 (.parsed successBody))) freshPage).plotContainer.map
        (fun p => p.layout.title.text)) = some "Superficie z = sin(x)*cos(y)" ∧
    ((run (calculateAndPlot sampleHost sampleForm
      (.response 200 (.parsed successBody))) freshPage).plotContainer.map
        (fun p => p.layout.title.text)) ≠ some ("Surface z = " ++ sampleForm.function) := by
  decide

/-- C10 (amended): when two submissions overlap, the busy indicator, the submit
control and the content of the plot container end as in a lone submission that
receives the response resolved last; the whole page does when both responses are
presented in full, and when both fail before anything is presented.  In every
case, if the lone submission ends with the error surface displayed so does the
overlapped run, with the same error text, and if the lone submission ends with
the result surface displayed so does the overlapped run, with the same volume
and error texts. -/
theorem overlapped_last_response (host : Host) (formFirst formLast : Form)
    (first last : FetchOutcome) (d : DOM) :
    (run (overlapped host formFirst formLast first last) d).loadingDisplay
      = (run (calculateAndPlot host formLast last) d).loadingDisplay ∧
    (run (overlapped host formFirst formLast first last) d).calculateBtnDisabled
      = (run (calculateAndPlot host formLast last) d).calculateBtnDisabled ∧
    (run (overlapped host formFirst formLast first last) d).plotContainer
      = (run (calculateAndPlot host formLast last) d).plotContainer ∧
    ((((tryBlock host formFirst first).2 = none ∧ (tryBlock host formLast last).2 = none) ∨
      ((tryBlock host formFirst first).1 = [] ∧ (tryBlock host formLast last).1 = [])) →
      run (overlapped host formFirst formLast first last) d
        = run (calculateAndPlot host formLast last) d) ∧
    ((run (calculateAndPlot host formLast last) d).errorDisplay = "block" →
      (run (overlapped host formFirst formLast first last) d).errorDisplay = "block" ∧
      (run (overlapped host formFirst formLast first last) d).errorText
        = (run (calculateAndPlot host formLast last) d).errorText) ∧
    ((run (calculateAndPlot host formLast last) d).resultsDisplay = "block" →
      (run (overlapped host formFirst formLast first last) d).resultsDisplay = "block" ∧
      (run (overlapped host formFirst formLast first last) d).volumeValue
        = (run (calculateAndPlot host formLast last) d).volumeValue ∧
      (run (overlapped host formFirst formLast first last) d).errorValue
        = (run (calculateAndPlot host formLast last) d).errorValue) := by
  have hne : ¬ ("none" = "block") := by decide
  rcases tryBlock_cases host formFirst first with
      ⟨e, h⟩ | ⟨v, e, h⟩ | ⟨v, x, e, h⟩ | ⟨v, x, p, h⟩ <;>
    rcases tryBlock_cases host formLast last with
      ⟨e', h'⟩ | ⟨v', e', h'⟩ | ⟨v', x', e', h'⟩ | ⟨v', x', p', h'⟩ <;>
    simp [overlapped, calculateAndPlot, syncPart, resumePart, handling, h, h', catchBlock,
      showError, finallyBlock, hideMessages, Write.apply, hne]

/-- C10 (amended), at two full envelopes and at two failure envelopes, where the
page ends as in the lone submission, and at a full envelope followed by a failure
envelope, where the error surface ends displayed with the last error's text. -/
theorem overlapped_last_response_witness :
    run (overlapped sampleHost sampleForm sampleForm
        (.response 200 (.parsed (.obj membersWithoutX))) (.response 200 (.parsed successBody)))
      stalePage
      = run (calculateAndPlot sampleHost sampleForm (.response 200 (.parsed successBody)))
          stalePage ∧
    run (overlapped sampleHost sampleForm sampleForm
        (.rejected ⟨"Failed to fetch"⟩) (.response 400 (.parsed (failureBody "bad"))))
      stalePage
      = run (calculateAndPlot sampleHost sampleForm (.response 400 (.parsed (failureBody "bad"))))
          stalePage ∧
    ((run (overlapped sampleHost sampleForm sampleForm
        (.response 200 (.parsed successBody)) (.response 400 (.parsed (failureBody "bad"))))
      stalePage).errorDisplay = "block" ∧
     (run (overlapped sampleHost sampleForm sampleForm
        (.response 200 (.parsed successBody)) (.response 400 (.parsed (failureBody "bad"))))
      stalePage).errorText
      = (run (calculateAndPlot sampleHost sampleForm
          (.response 400 (.parsed (failureBody "bad")))) stalePage).errorText) :=
  ⟨(overlapped_last_response sampleHost sampleForm sampleForm _ _ stalePage).2.2.2.1
      (Or.inl ⟨rfl, rfl⟩),
   (overlapped_last_response sampleHost sampleForm sampleForm _ _ stalePage).2.2.2.1
      (Or.inr ⟨rfl, rfl⟩),
   (overlapped_last_response sampleHost sampleForm sampleForm _ _ stalePage).2.2.2.2.1
      (by decide)⟩

/-- C10 as stated fails: when a full envelope resolves first and a failure last,
the page ends with the result surface displayed, which the lone failed submission
hides; when the failure resolves first and the envelope last, it ends with the
error surface displayed and the first error's text, which the lone successful
submission hides and leaves untouched. -/
theorem overlapped_stale_surface_counterexample :
    (run (overlapped sampleHost sampleForm sampleForm
        (.response 200 (.parsed successBody)) (.response 400 (.parsed (failureBody "bad"))))
      freshPage).resultsDisplay = "block" ∧
    (run (calculateAndPlot sampleHost sampleForm (.response 400 (.parsed (failureBody "bad"))))
      freshPage).resultsDisplay = "none" ∧
    (run (overlapped sampleHost sampleForm sampleForm
        (.response 400 (.parsed (failureBody "bad"))) (.response 200 (.parsed successBody)))
      freshPage).errorDisplay = "block" ∧
    (run (calculateAndPlot sampleHost sampleForm (.response 200 (.parsed successBody)))
      freshPage).errorDisplay = "none" ∧
    (run (overlapped sampleHost sampleForm sampleForm
        (.response 400 (.parsed (failureBody "bad"))) (.response 200 (.parsed successBody)))
      freshPage).errorText = "bad" ∧
    (run (calculateAndPlot sampleHost sampleForm (.response 200 (.parsed successBody)))
      freshPage).errorText = "" := by
  decide

/-- The text `toFixed(6)` gives for a finite number of magnitude below `10^21`: an
optional sign, digits with no leading zero, a point and six digits; read without
the point the digits denote the integer nearest to `|v| * 10^6`. -/
theorem toFixed_shape (host : Host) (v : ℚ) (hlt : |v| < 10 ^ 21) :
    ∃ ip fp, toFixed host 6 (.finite v)
        = String.mk ((if v < 0 then ['-'] else []) ++ ip ++ '.' :: fp) ∧
      ip ≠ [] ∧ (∀ ch ∈ ip, ch.isDigit = true) ∧ (ip = ['0'] ∨ ip.head? ≠ some '0') ∧
      fp.length = 6 ∧ (∀ ch ∈ fp, ch.isDigit = true) ∧
      |(decimalValue (ip ++ fp) : ℚ) - |v| * 10 ^ 6| ≤ 1 / 2 := by
  have hx : (if v < 0 then -v else v) = |v| := by
    split
    · rename_i h; rw [abs_of_neg h]
    · rename_i h; rw [abs_of_nonneg (not_lt.1 h)]
  obtain ⟨ip, fp, hfd, h1, h2, h2', h3, h4, h5⟩ := fixedDigits_shape 6 (by norm_num) |v|
  refine ⟨ip, fp, ?_, h1, h2, h2', h3, h4, ?_⟩
  · unfold toFixed
    simp only [hx]
    rw [if_neg (not_le.2 hlt), hfd, List.append_assoc]
  · rw [h5]
    exact roundHalfUp_near _ (by positivity)

/-- The text `toExponential(2)` gives for a finite number that is not negative:
a digit, a point, two digits, `e`, a sign and the digits of the exponent, with no
leading zero and no minus sign before a zero exponent.  For a positive number the
first digit is not zero, and no three-digit numeral times a power of ten is
nearer to the number than the one written. -/
theorem toExponential_shape (e : ℚ) (hpos : 0 ≤ e) :
    ∃ (a b c s : Char) (ex : List Char), toExponential 2 (.finite e)
        = String.mk (a :: '.' :: b :: c :: 'e' :: s :: ex) ∧
      a.isDigit = true ∧ b.isDigit = true ∧ c.isDigit = true ∧ (s = '+' ∨ s = '-') ∧
      ex ≠ [] ∧ (∀ ch ∈ ex, ch.isDigit = true) ∧
      (ex = ['0'] ∨ ex.head? ≠ some '0') ∧ (s = '-' → 0 < decimalValue ex) ∧
      (0 < e → 100 ≤ decimalValue [a, b, c]) ∧
      (∀ (m : ℕ) (F : ℤ), m < 1000 →
        |(decimalValue [a, b, c] : ℚ) *
            10 ^ ((if s = '-' then -(decimalValue ex : ℤ) else (decimalValue ex : ℤ)) - 2) - e|
          ≤ |(m : ℚ) * 10 ^ (F - 2) - e|) := by
  have hneg : ¬ e < 0 := not_lt.2 hpos
  unfold toExponential
  simp only [if_neg hneg]
  by_cases h0 : e = 0
  · refine ⟨'0', '0', '0', '+', ['0'], ?_, rfl, rfl, rfl, Or.inl rfl, by simp, by simp,
      Or.inl rfl, fun h => absurd h (by decide), ?_, ?_⟩
    · simp only [if_pos h0]
      rfl
    · intro h
      exact absurd h0 (ne_of_gt h)
    · intro m F _
      have hz : decimalValue ['0', '0', '0'] = 0 := by decide
      rw [hz, h0]
      simp
  · have hx : 0 < e := lt_of_le_of_ne hpos (Ne.symm h0)
    simp only [if_neg h0]
    obtain ⟨a, b, c, habc⟩ := decimalDigits_three _ (exponentAndDigits_bounds e hx).1
      (exponentAndDigits_bounds e hx).2
    have hd := decimalDigits_isDigit (exponentAndDigits 2 e).2
    have hval : decimalValue [a, b, c] = (exponentAndDigits 2 e).2 := by
      rw [← habc, decimalValue_decimalDigits]
    have hexp : (if (if (exponentAndDigits 2 e).1 < 0 then '-' else '+') = '-'
        then -(decimalValue (decimalDigits (exponentAndDigits 2 e).1.natAbs) : ℤ)
        else (decimalValue (decimalDigits (exponentAndDigits 2 e).1.natAbs) : ℤ))
        = (exponentAndDigits 2 e).1 := by
      rw [decimalValue_decimalDigits]
      by_cases hlt : (exponentAndDigits 2 e).1 < 0
      · rw [if_pos hlt, if_pos rfl, Int.ofNat_natAbs_of_nonpos hlt.le, neg_neg]
      · rw [if_neg hlt, if_neg (by decide), Int.natAbs_of_nonneg (not_lt.1 hlt)]
    rw [habc] at hd
    refine ⟨a, b, c, if (exponentAndDigits 2 e).1 < 0 then '-' else '+',
      decimalDigits (exponentAndDigits 2 e).1.natAbs, ?_, hd a (by simp), hd b (by simp),
      hd c (by simp), ?_, decimalDigits_ne_nil _, decimalDigits_isDigit _,
      decimalDigits_head _, ?_, ?_, ?_⟩
    · rw [habc]
      rfl
    · split
      · exact Or.inr rfl
      · exact Or.inl rfl
    · intro hs
      rw [decimalValue_decimalDigits]
      by_cases hlt : (exponentAndDigits 2 e).1 < 0
      · omega
      · rw [if_neg hlt] at hs
        exact absurd hs (by decide)
    · intro _
      rw [hval]
      exact (exponentAndDigits_bounds e hx).1
    · intro m F hm
      rw [hexp, hval]
      exact exponentAndDigits_optimal e hx m F hm

theorem roundHalfUp_sampleVolume : roundHalfUp (sampleVolume * 10 ^ 6) = 123 := by
  unfold roundHalfUp sampleVolume
  rw [Nat.floor_eq_iff (by norm_num)]
  norm_num

theorem toFixed_sampleVolume : toFixed sampleHost 6 (.finite sampleVolume) = "0.000123" := by
  have hn : ¬ sampleVolume < 0 := by norm_num [sampleVolume]
  have hsmall : ¬ (10 : ℚ) ^ 21 ≤ sampleVolume := by norm_num [sampleVolume]
  have hfd : fixedDigits 6 sampleVolume = "0.000123".data := by
    unfold fixedDigits
    rw [roundHalfUp_sampleVolume]
    decide
  unfold toFixed
  simp only [if_neg hn, if_neg hsmall, hfd]
  rfl

theorem log_sampleError : Int.log 10 sampleError = -5 := by
  have hpos : (0 : ℚ) < sampleError := by norm_num [sampleError]
  apply le_antisymm
  · have := (Int.lt_zpow_iff_log_lt (b := 10) (by norm_num) hpos (x := -4)).1
      (by norm_num [sampleError])
    omega
  · exact (Int.zpow_le_iff_le_log (b := 10) (by norm_num) hpos).1 (by norm_num [sampleError])

theorem exponentAndDigits_sampleError : exponentAndDigits 2 sampleError = (-5, 120) := by
  have hr : roundHalfUp (sampleError / (10 : ℚ) ^ ((-5 : ℤ) - ((2 : ℕ) : ℤ))) = 120 := by
    unfold roundHalfUp sampleError
    rw [Nat.floor_eq_iff (by norm_num)]
    norm_num
  unfold exponentAndDigits
  simp only [log_sampleError, hr]
  norm_num

theorem toExponential_sampleError : toExponential 2 (.finite sampleError) = "1.20e-5" := by
  have hn : ¬ sampleError < 0 := by norm_num [sampleError]
  have h0 : ¬ sampleError = 0 := by norm_num [sampleError]
  unfold toExponential
  simp only [if_neg hn, if_neg h0, exponentAndDigits_sampleError]
  decide

theorem v8NumberToString_huge : v8NumberToString (10 ^ 21) = "1e+21" := by
  have hq : ((10 : ℚ) ^ 21) = ((10 ^ 21 : ℕ) : ℚ) := by norm_num
  unfold v8NumberToString
  rw [hq, Rat.num_natCast, Rat.den_natCast, Int.natAbs_ofNat]
  decide

theorem toFixed_huge : toFixed sampleHost 6 (.finite (10 ^ 21)) = "1e+21" := by
  have hn : ¬ ((10 : ℚ) ^ 21 < 0) := by norm_num
  unfold toFixed
  simp only [if_neg hn, le_refl, if_true]
  show String.mk ([] ++ (v8NumberToString (10 ^ 21)).data) = "1e+21"
  rw [v8NumberToString_huge]
  rfl

/-- The text `toFixed(6)` gives for a finite number of magnitude `10^21` or
more: the sign and Number::toString of the magnitude. -/
theorem toFixed_large (host : Host) (v : ℚ) (hge : 10 ^ 21 ≤ |v|) :
    toFixed host 6 (.finite v)
      = String.mk ((if v < 0 then ['-'] else []) ++ (host.numberToString |v|).data) := by
  have hx : (if v < 0 then -v else v) = |v| := by
    split
    · rename_i h; rw [abs_of_neg h]
    · rename_i h; rw [abs_of_nonneg (not_lt.1 h)]
  unfold toFixed
  simp only [hx]
  rw [if_pos hge]

/-- C8 (amended): for a body whose `volume` is a finite number `v` and whose
`error` is a finite number `e` that is not negative, `displayResults` writes the
volume text, the error text, and displays the result surface.
* The error text is one digit, a point, exactly two digits, `e`, a sign and the
  digits of the exponent (no leading zero, no minus sign before a zero exponent);
  for `e > 0` the first digit is not zero and no three-digit numeral times a
  power of ten is nearer to `e`.
* For `|v| < 10^21` the volume text is an optional minus sign, digits with no
  leading zero, a point and exactly six digits, the digits denoting `|v| * 10^6`
  rounded to the nearest integer.
* For `|v| ≥ 10^21` the volume text is an optional minus sign followed by
  Number::toString of `|v|`. -/
theorem displayResults_texts (host : Host) (members : List (String × JSON)) (v e : ℚ)
    (hv : members.lookup "volume" = some (.num (.finite v)))
    (he : members.lookup "error" = some (.num (.finite e)))
    (hpos : 0 ≤ e) :
    ∃ (a b c s : Char) (ex : List Char),
      displayResults host (.obj members) =
        ([.volumeValue (toFixed host 6 (.finite v)),
          .errorValue (String.mk (a :: '.' :: b :: c :: 'e' :: s :: ex)),
          .resultsDisplay "block"], none) ∧
      a.isDigit = true ∧ b.isDigit = true ∧ c.isDigit = true ∧ (s = '+' ∨ s = '-') ∧
      ex ≠ [] ∧ (∀ ch ∈ ex, ch.isDigit = true) ∧
      (ex = ['0'] ∨ ex.head? ≠ some '0') ∧ (s = '-' → 0 < decimalValue ex) ∧
      (0 < e → 100 ≤ decimalValue [a, b, c]) ∧
      (∀ (m : ℕ) (F : ℤ), m < 1000 →
        |(decimalValue [a, b, c] : ℚ) *
            10 ^ ((if s = '-' then -(decimalValue ex : ℤ) else (decimalValue ex : ℤ)) - 2) - e|
          ≤ |(m : ℚ) * 10 ^ (F - 2) - e|) ∧
      (|v| < 10 ^ 21 → ∃ ip fp : List Char,
        toFixed host 6 (.finite v)
          = String.mk ((if v < 0 then ['-'] else []) ++ ip ++ '.' :: fp) ∧
        ip ≠ [] ∧ (∀ ch ∈ ip, ch.isDigit = true) ∧ (ip = ['0'] ∨ ip.head? ≠ some '0') ∧
        fp.length = 6 ∧ (∀ ch ∈ fp, ch.isDigit = true) ∧
        |(decimalValue (ip ++ fp) : ℚ) - |v| * 10 ^ 6| ≤ 1 / 2) ∧
      (10 ^ 21 ≤ |v| →
        toFixed host 6 (.finite v)
          = String.mk ((if v < 0 then ['-'] else []) ++ (host.numberToString |v|).data)) := by
  obtain ⟨a, b, c, s, ex, hx, k1, k2, k3, k4, k5, k6, k7, k8, k9, k10⟩ :=
    toExponential_shape e hpos
  refine ⟨a, b, c, s, ex, ?_, k1, k2, k3, k4, k5, k6, k7, k8, k9, k10,
    fun hlt => toFixed_shape host v hlt, fun hge => toFixed_large host v hge⟩
  rw [← hx]
  simp [displayResults, getProp, hv, he, Except.bind, callToFixed, callToExponential]

/-- C8 (amended), at the volume `0.000123` and the error `1.2e-05` of scenario 1,
where the texts are "0.000123" and "1.20e-5", and at the volume `1e21`, where the
volume text is "1e+21". -/
theorem displayResults_texts_witness :
    0 ≤ sampleError ∧
    (∃ (a b c s : Char) (ex : List Char),
      displayResults sampleHost (.obj successMembers) =
        ([.volumeValue (toFixed sampleHost 6 (.finite sampleVolume)),
          .errorValue (String.mk (a :: '.' :: b :: c :: 'e' :: s :: ex)),
          .resultsDisplay "block"], none) ∧
      a.isDigit = true ∧ b.isDigit = true ∧ c.isDigit = true ∧ (s = '+' ∨ s = '-') ∧
      ex ≠ [] ∧ (∀ ch ∈ ex, ch.isDigit = true) ∧
      (ex = ['0'] ∨ ex.head? ≠ some '0') ∧ (s = '-' → 0 < decimalValue ex) ∧
      (0 < sampleError → 100 ≤ decimalValue [a, b, c])) ∧
    displayResults sampleHost (.obj successMembers) =
      ([.volumeValue "0.000123", .errorValue "1.20e-5", .resultsDisplay "block"], none) ∧
    (∃ (a b c s : Char) (ex : List Char),
      displayResults sampleHost (.obj membersHugeVolume) =
        ([.volumeValue "1e+21",
          .errorValue (String.mk (a :: '.' :: b :: c :: 'e' :: s :: ex)),
          .resultsDisplay "block"], none)) :=
  ⟨by norm_num [sampleError],
   by
     obtain ⟨a, b, c, s, ex, h, k1, k2, k3, k4, k5, k6, k7, k8, k9, _⟩ :=
       displayResults_texts sampleHost successMembers sampleVolume sampleError rfl rfl
         (by norm_num [sampleError])
     exact ⟨a, b, c, s, ex, h, k1, k2, k3, k4, k5, k6, k7, k8, k9⟩,
   by
     rw [← toFixed_sampleVolume, ← toExponential_sampleError]
     rfl,
   by
     obtain ⟨a, b, c, s, ex, h, _⟩ :=
       displayResults_texts sampleHost membersHugeVolume (10 ^ 21) sampleError rfl rfl
         (by norm_num [sampleError])
     rw [toFixed_huge] at h
     exact ⟨a, b, c, s, ex, h⟩⟩

/-- C8 as stated fails at the volume `1e21`: the volume text is "1e+21", which has
no decimal point. -/
theorem huge_volume_counterexample :
    (run (calculateAndPlot sampleHost sampleForm
      (.response 200 (.parsed (.obj membersHugeVolume)))) freshPage).volumeValue = "1e+21" ∧
    '.' ∉ "1e+21".data := by
  constructor
  · rw [← toFixed_huge]
    rfl
  · decide

end CalculadoraFunciones
